import Mathlib

/-!
Shallow embedding of `ansible/roles/thingsboard/files/configure_thingsboard.py`:
the entity reconciler (`ensure_device` and its helpers) and the graph
reconciler (`ensure_kafka_sink_in_root_chain`).  Remote HTTP calls are made
explicit: the graph reconciler takes the fetched metadata document and returns
the trace of write requests it issues; the entity reconciler runs against a
state model of the remote platform described at its interface boundary.
-/

namespace ConfigureThingsboard

/-- JSON-like scalar values appearing in node configuration maps. -/
inductive JVal where
  | s (v : String)
  | n (v : Int)
  | b (v : Bool)
  | null
deriving DecidableEq

/-- A rule node of the graph document, with the fields the script constructs
for its synthesized Kafka sink node (`kafka_node` literal, lines 154-179). -/
structure RuleNode where
  id : String
  createdTime : Nat
  ruleChainId : String
  type : String
  name : String
  debugSettings : JVal
  singletonMode : Bool
  queueName : JVal
  configurationVersion : Nat
  configuration : List (String × JVal)
  externalId : JVal
  additionalInfo : List (String × JVal)
deriving DecidableEq

/-- An edge (`connection`) of the graph document: positional node references
plus the routing label (the `type` key of the connection dict). -/
structure Edge where
  fromIndex : Nat
  toIndex : Nat
  type : String
deriving DecidableEq

/-- The rule-chain metadata document.  `connections` is optional because the
script normalizes a missing or null `connections` key with
`metadata.get("connections", []) or []`; `extra` holds every other key of the
JSON document, which the script passes through untouched. -/
structure ChainMetadata where
  nodes : List RuleNode
  connections : Option (List Edge)
  extra : List (String × JVal)
deriving DecidableEq

/-- Tests whether `pat` occurs at the head of `s` (character lists). -/
def startsWithChars : List Char → List Char → Bool
  | [], _ => true
  | _ :: _, [] => false
  | a :: as, b :: bs => a == b && startsWithChars as bs

/-- Tests whether `pat` occurs somewhere in `s` (character lists). -/
def containsChars (pat : List Char) : List Char → Bool
  | [] => startsWithChars pat []
  | c :: t => startsWithChars pat (c :: t) || containsChars pat t

/-- Python's `needle in hay` on strings. -/
def strContains (hay needle : String) : Bool :=
  containsChars needle.data hay.data

/-- The sink node type (line 143 and line 158). -/
def kafkaNodeType : String := "org.thingsboard.rule.engine.kafka.TbKafkaNode"

/-- The dispatch node type substring (line 147). -/
def msgSwitchTypeSubstr : String := "TbMsgTypeSwitchNode"

/-- The routing label of the desired edge (line 188). -/
def postTelemetryLabel : String := "Post telemetry"

/-- Line 143: `node.get("type") == "org.thingsboard.rule.engine.kafka.TbKafkaNode"`. -/
def isKafkaNode (n : RuleNode) : Bool := n.type == kafkaNodeType

/-- Line 147: `"TbMsgTypeSwitchNode" in node.get("type", "")`. -/
def isMsgSwitchNode (n : RuleNode) : Bool := strContains n.type msgSwitchTypeSubstr

/-- Lines 184-187: `conn.get("fromIndex") == msg_switch_index and
conn.get("toIndex") == kafka_index`. -/
def connectsB (msg_switch_index kafka_index : Nat) (conn : Edge) : Bool :=
  conn.fromIndex == msg_switch_index && conn.toIndex == kafka_index

/-- The synthesized Kafka sink node (lines 154-179).  `fresh_uuid` stands for
`str(uuid4())` and `now_millis` for `int(time.time() * 1000)`. -/
def kafka_node (chain_id fresh_uuid : String) (now_millis : Nat)
    (kafka_topic kafka_bootstrap : String) : RuleNode :=
  { id := fresh_uuid
    createdTime := now_millis
    ruleChainId := chain_id
    type := kafkaNodeType
    name := "Kafka sink"
    debugSettings := JVal.null
    singletonMode := false
    queueName := JVal.null
    configurationVersion := 0
    configuration := [
      ("topic", JVal.s kafka_topic),
      ("bootstrapServers", JVal.s kafka_bootstrap),
      ("sync", JVal.b false),
      ("timeout", JVal.n 3000),
      ("retries", JVal.n 1),
      ("acks", JVal.s "1"),
      ("batchSize", JVal.n 16384),
      ("linger", JVal.n 1),
      ("maxRequestSize", JVal.n 1048576),
      ("key", JVal.s "${deviceName}"),
      ("addMetadata", JVal.b false)]
    externalId := JVal.null
    additionalInfo := [("layoutX", JVal.n 1000), ("layoutY", JVal.n 320)] }

/-- Lines 153-182: if no Kafka node exists, append one and record its index,
otherwise keep the node list and the found index. -/
def sinkStep (chain_id fresh_uuid : String) (now_millis : Nat)
    (kafka_topic kafka_bootstrap : String) (nodes : List RuleNode) :
    List RuleNode × Nat :=
  match nodes.findIdx? isKafkaNode with
  | some kafka_index => (nodes, kafka_index)
  | none =>
    (nodes ++ [kafka_node chain_id fresh_uuid now_millis kafka_topic kafka_bootstrap],
      nodes.length)

/-- Lines 184-189: if no connection joins `msg_switch_index` to `kafka_index`,
append the `Post telemetry` edge. -/
def edgeStep (msg_switch_index kafka_index : Nat) (connections : List Edge) :
    List Edge :=
  if connections.any (connectsB msg_switch_index kafka_index) then connections
  else connections ++ [⟨msg_switch_index, kafka_index, postTelemetryLabel⟩]

/-- The pure mutation core of `ensure_kafka_sink_in_root_chain`
(lines 139-192), from the fetched metadata document to the document handed to
the write step, or the raised `RequestError` message. -/
def ensure_kafka_sink_metadata (chain_id fresh_uuid : String) (now_millis : Nat)
    (kafka_topic kafka_bootstrap : String) (metadata : ChainMetadata) :
    Except String ChainMetadata :=
  let nodes := metadata.nodes
  let connections := (metadata.connections.getD [])
  match nodes.findIdx? isMsgSwitchNode with
  | none => Except.error "Message Type Switch node not found in root rule chain"
  | some msg_switch_index =>
    let step := sinkStep chain_id fresh_uuid now_millis kafka_topic kafka_bootstrap nodes
    let connections2 := edgeStep msg_switch_index step.2 connections
    Except.ok { metadata with nodes := step.1, connections := some connections2 }

/-- One metadata write request issued by the script. -/
structure WriteRequest where
  path : String
  payload : ChainMetadata
deriving DecidableEq

/-- The primary metadata update endpoint (line 196). -/
def primaryMetadataPath (chain_id : String) : String :=
  "/api/ruleChain/" ++ chain_id ++ "/metadata"

/-- The secondary (legacy) metadata update endpoint (line 203). -/
def legacyMetadataPath : String := "/api/ruleChain/metadata"

/-- Lines 194-207: POST the document to the primary endpoint; on a
`RequestError` POST the same document once to the legacy endpoint.
`primary_ok` and `legacy_ok` say whether each remote endpoint accepts the
request.  Returns the trace of issued writes and success or failure. -/
def write_metadata_with_fallback (chain_id : String) (primary_ok legacy_ok : Bool)
    (payload : ChainMetadata) : List WriteRequest × Except String Unit :=
  if primary_ok then
    ([⟨primaryMetadataPath chain_id, payload⟩], Except.ok ())
  else if legacy_ok then
    ([⟨primaryMetadataPath chain_id, payload⟩, ⟨legacyMetadataPath, payload⟩],
      Except.ok ())
  else
    ([⟨primaryMetadataPath chain_id, payload⟩, ⟨legacyMetadataPath, payload⟩],
      Except.error "metadata update failed on primary and legacy endpoints")

/-- The function `ensure_kafka_sink_in_root_chain` (lines 130-209) from the point where the
metadata document has been fetched: mutate the document, then write it back
with fallback.  Returns the trace of write requests together with the written
document (the Python function returns the rule-chain summary; the claims are
about the writes and the document).  On a raised error no write is issued. -/
def ensure_kafka_sink_in_root_chain (chain_id fresh_uuid : String)
    (now_millis : Nat) (kafka_topic kafka_bootstrap : String)
    (primary_ok legacy_ok : Bool) (metadata : ChainMetadata) :
    List WriteRequest × Except String ChainMetadata :=
  match ensure_kafka_sink_metadata chain_id fresh_uuid now_millis kafka_topic
      kafka_bootstrap metadata with
  | Except.error e => ([], Except.error e)
  | Except.ok updated =>
    match write_metadata_with_fallback chain_id primary_ok legacy_ok updated with
    | (reqs, Except.ok _) => (reqs, Except.ok updated)
    | (reqs, Except.error e) => (reqs, Except.error e)

/-- An owning-entity reference, e.g. `{"entityType": "DEVICE", "id": dev_id}`. -/
structure EntityRef where
  entityType : String
  id : String
deriving DecidableEq

/-- A device as returned by the platform. -/
structure Device where
  id : String
  name : String
  type : String
deriving DecidableEq

/-- A credential record as fetched from `GET /api/device/{id}/credentials`:
both the id and the owning-entity reference may be missing. -/
structure CredRecord where
  id : Option String
  deviceId : Option EntityRef
  credentialsType : String
  credentialsId : String
deriving DecidableEq

/-- The credential-upsert payload the script builds (lines 102-109). -/
structure CredPayload where
  credentialsType : String
  credentialsId : String
  deviceId : EntityRef
  id : Option String
deriving DecidableEq

/-- A rule-chain summary item of a search page. -/
structure RuleChainInfo where
  id : String
  name : String
deriving DecidableEq

/-- Lines 84-87 of `find_device`: scan the search page for the first item
whose name exactly equals the lookup name. -/
def find_device_in_page (data : List Device) (name : String) : Option Device :=
  data.find? (fun item => item.name == name)

/-- Lines 124-127 of `find_rule_chain`: same first-exact-match scan. -/
def find_rule_chain_in_page (data : List RuleChainInfo) (name : String) :
    Option RuleChainInfo :=
  data.find? (fun item => item.name == name)

/-- Lines 102-109: build the credential-upsert payload.  The guard is Python's
`if credentials and credentials.get("id")`, so an absent record, an absent id,
or an empty-string id all leave the payload without an `id` field. -/
def build_cred_payload (dev_id access_token : String)
    (credentials : Option CredRecord) : CredPayload :=
  let base : CredPayload :=
    { credentialsType := "ACCESS_TOKEN"
      credentialsId := access_token
      deviceId := ⟨"DEVICE", dev_id⟩
      id := none }
  match credentials with
  | some c =>
    if (c.id.getD "") != "" then
      { base with id := c.id, deviceId := c.deviceId.getD base.deviceId }
    else base
  | none => base

/-- A credential record as stored on the platform (stored records always carry
an id and an owning device id). -/
structure StoredCred where
  id : String
  deviceId : String
  credentialsType : String
  credentialsId : String
deriving DecidableEq

/-- Fresh opaque ids drawn by the modelled platform. -/
def freshIdStr (n : Nat) : String := "id-" ++ toString n

/-- Modelled from the spec: the remote platform's state at its interface
boundary (spec sections 3, 4.2 and 6 — the platform itself is outside the
repository): its devices, its credential records, and a counter from which
fresh opaque ids are drawn. -/
structure ServerState where
  devices : List Device
  creds : List StoredCred
  nextId : Nat
deriving DecidableEq

/-- Modelled from the spec: the device text search (`textSearch`) returns
near-matches — every device whose name contains the query text. -/
def searchDevices (s : ServerState) (text : String) : List Device :=
  s.devices.filter (fun d => strContains d.name text)

/-- Modelled from the spec: `POST /api/device` creates a device with a fresh
opaque id and returns it. -/
def createDevice (s : ServerState) (name type_ : String) : Device × ServerState :=
  let d : Device := ⟨freshIdStr s.nextId, name, type_⟩
  (d, { devices := s.devices ++ [d], creds := s.creds, nextId := s.nextId + 1 })

/-- Modelled from the spec: `GET /api/device/{id}/credentials` returns the
entity's current credential record, which may be absent. -/
def getCredentials (s : ServerState) (dev_id : String) : Option StoredCred :=
  s.creds.find? (fun c => c.deviceId == dev_id)

/-- A stored credential as it is fetched over the wire. -/
def toFetched (c : StoredCred) : CredRecord :=
  { id := some c.id
    deviceId := some ⟨"DEVICE", c.deviceId⟩
    credentialsType := c.credentialsType
    credentialsId := c.credentialsId }

/-- Modelled from the spec: the credential upsert (`POST
/api/device/credentials`) — "updates must reuse the existing credential's id
when one exists, otherwise the remote platform may create a duplicate": a
payload carrying the id of an existing record updates that record in place;
any other payload makes the platform create a new record with a fresh id. -/
def postCredentials (s : ServerState) (p : CredPayload) : ServerState :=
  let fresh : StoredCred :=
    ⟨freshIdStr s.nextId, p.deviceId.id, p.credentialsType, p.credentialsId⟩
  match p.id with
  | some i =>
    if s.creds.any (fun c => c.id == i) then
      { s with creds := s.creds.map (fun c =>
          if c.id == i then ⟨i, p.deviceId.id, p.credentialsType, p.credentialsId⟩
          else c) }
    else
      { devices := s.devices, creds := s.creds ++ [fresh], nextId := s.nextId + 1 }
  | none =>
      { devices := s.devices, creds := s.creds ++ [fresh], nextId := s.nextId + 1 }

/-- The function `find_device` (lines 79-87) against the modelled platform: fetch the
search page and take the first exact name match. -/
def find_device (s : ServerState) (name : String) : Option Device :=
  find_device_in_page (searchDevices s name) name

/-- Lines 101-115 of `ensure_device`: fetch the device's current credential
record, build the upsert payload and submit it. -/
def upsert_credentials (s : ServerState) (dev_id access_token : String) :
    ServerState :=
  let credentials := (getCredentials s dev_id).map toFetched
  postCredentials s (build_cred_payload dev_id access_token credentials)

/-- The function `ensure_device` (lines 90-116) against the modelled platform: look the
device up, create it if absent, then upsert its credential.  Returns the
device and the resulting remote state. -/
def ensure_device (s : ServerState) (name access_token : String) :
    Device × ServerState :=
  let devAndS :=
    match find_device s name with
    | some d => (d, s)
    | none => createDevice s name "drone"
  (devAndS.1, upsert_credentials devAndS.2 devAndS.1.id access_token)

/-- The token of the credential record the platform holds for a device. -/
def deviceToken (s : ServerState) (dev_id : String) : Option String :=
  (getCredentials s dev_id).map StoredCred.credentialsId

/-- A concrete dispatch node (its type contains `TbMsgTypeSwitchNode`). -/
def switchNodeEx : RuleNode :=
  { id := "n1", createdTime := 0, ruleChainId := "rc",
    type := "org.thingsboard.rule.engine.filter.TbMsgTypeSwitchNode",
    name := "Message Type Switch", debugSettings := JVal.null,
    singletonMode := false, queueName := JVal.null, configurationVersion := 0,
    configuration := [], externalId := JVal.null, additionalInfo := [] }

/-- A concrete pre-existing sink node of the target type. -/
def kafkaNodeEx : RuleNode :=
  { id := "n2", createdTime := 0, ruleChainId := "rc", type := kafkaNodeType,
    name := "Kafka sink", debugSettings := JVal.null, singletonMode := false,
    queueName := JVal.null, configurationVersion := 0, configuration := [],
    externalId := JVal.null, additionalInfo := [] }

/-- A document with dispatch node at index 0, sink node at index 1, and a
single edge from 0 to 1 whose label is not the routing label. -/
def mOtherLabel : ChainMetadata :=
  ⟨[switchNodeEx, kafkaNodeEx], some [⟨0, 1, "Other"⟩], []⟩

/-- Like `mOtherLabel` with another non-routing label, for the second
idempotence scenario. -/
def mFooLabel : ChainMetadata :=
  ⟨[switchNodeEx, kafkaNodeEx], some [⟨0, 1, "Foo"⟩], []⟩

/-- A document with dispatch node, sink node, and the routing edge installed. -/
def mInstalled : ChainMetadata :=
  ⟨[switchNodeEx, kafkaNodeEx], some [⟨0, 1, postTelemetryLabel⟩], []⟩

/-- A document with only the dispatch node and no edges. -/
def mSwitchOnly : ChainMetadata := ⟨[switchNodeEx], some [], []⟩

/-- A document with dispatch node at 0, sink node at 1, and no edges. -/
def mNoEdge : ChainMetadata := ⟨[switchNodeEx, kafkaNodeEx], some [], []⟩

/-- A document with no dispatch node at all. -/
def mNoSwitch : ChainMetadata := ⟨[kafkaNodeEx], some [], []⟩

theorem ensure_error_of_no_switch {m : ChainMetadata}
    (hsw : m.nodes.findIdx? isMsgSwitchNode = none)
    (ch fu : String) (now : Nat) (tp bs : String) :
    ensure_kafka_sink_metadata ch fu now tp bs m =
      Except.error "Message Type Switch node not found in root rule chain" := by
  simp [ensure_kafka_sink_metadata, hsw]

theorem ensure_ok_of_switch {m : ChainMetadata} {d : Nat}
    (hsw : m.nodes.findIdx? isMsgSwitchNode = some d)
    (ch fu : String) (now : Nat) (tp bs : String) :
    ensure_kafka_sink_metadata ch fu now tp bs m =
      Except.ok { m with
        nodes := (sinkStep ch fu now tp bs m.nodes).1,
        connections := some (edgeStep d (sinkStep ch fu now tp bs m.nodes).2
          (m.connections.getD [])) } := by
  simp [ensure_kafka_sink_metadata, hsw]

theorem sinkStep_of_found {nodes : List RuleNode} {k : Nat}
    (hk : nodes.findIdx? isKafkaNode = some k)
    (ch fu : String) (now : Nat) (tp bs : String) :
    sinkStep ch fu now tp bs nodes = (nodes, k) := by
  simp [sinkStep, hk]

theorem sinkStep_of_missing {nodes : List RuleNode}
    (hk : nodes.findIdx? isKafkaNode = none)
    (ch fu : String) (now : Nat) (tp bs : String) :
    sinkStep ch fu now tp bs nodes =
      (nodes ++ [kafka_node ch fu now tp bs], nodes.length) := by
  simp [sinkStep, hk]

theorem edgeStep_of_hit {connections : List Edge} {d k : Nat}
    (h : connections.any (connectsB d k) = true) :
    edgeStep d k connections = connections := by
  simp [edgeStep, h]

theorem edgeStep_of_miss {connections : List Edge} {d k : Nat}
    (h : connections.any (connectsB d k) = false) :
    edgeStep d k connections = connections ++ [⟨d, k, postTelemetryLabel⟩] := by
  simp [edgeStep, h]

theorem sinkStep_shape (ch fu : String) (now : Nat) (tp bs : String)
    (nodes : List RuleNode) :
    ∃ tn, (sinkStep ch fu now tp bs nodes).1 = nodes ++ tn ∧ tn.length ≤ 1 := by
  cases hk : nodes.findIdx? isKafkaNode with
  | some k => exact ⟨[], by simp [sinkStep_of_found hk]⟩
  | none =>
    exact ⟨[kafka_node ch fu now tp bs], by simp [sinkStep_of_missing hk]⟩

theorem edgeStep_shape (d k : Nat) (connections : List Edge) :
    ∃ te, edgeStep d k connections = connections ++ te ∧ te.length ≤ 1 := by
  cases h : connections.any (connectsB d k) with
  | true => exact ⟨[], by simp [edgeStep_of_hit h]⟩
  | false =>
    exact ⟨[⟨d, k, postTelemetryLabel⟩], by simp [edgeStep_of_miss h]⟩

theorem ensure_shape {ch fu : String} {now : Nat} {tp bs : String}
    {m m' : ChainMetadata}
    (h : ensure_kafka_sink_metadata ch fu now tp bs m = Except.ok m') :
    ∃ tn te, m'.nodes = m.nodes ++ tn ∧ tn.length ≤ 1 ∧
      m'.connections = some (m.connections.getD [] ++ te) ∧ te.length ≤ 1 ∧
      m'.extra = m.extra := by
  cases hsw : m.nodes.findIdx? isMsgSwitchNode with
  | none => rw [ensure_error_of_no_switch hsw] at h; cases h
  | some d =>
    rw [ensure_ok_of_switch hsw] at h
    obtain ⟨tn, htn, htn1⟩ := sinkStep_shape ch fu now tp bs m.nodes
    obtain ⟨te, hte, hte1⟩ :=
      edgeStep_shape d (sinkStep ch fu now tp bs m.nodes).2 (m.connections.getD [])
    cases h
    exact ⟨tn, te, htn, htn1, by rw [hte], hte1, rfl⟩

/-- C2: every pre-existing edge keeps its `fromIndex` and `toIndex` (indeed is
wholly unchanged) in the document produced by the mutation core: edges are
only appended, and node insertion is append-only. -/
theorem C2_preexisting_edges_unchanged {ch fu : String} {now : Nat}
    {tp bs : String} {m m' : ChainMetadata}
    (h : ensure_kafka_sink_metadata ch fu now tp bs m = Except.ok m') :
    ∃ cs', m'.connections = some cs' ∧
      (∃ tn, m'.nodes = m.nodes ++ tn) ∧
      ∀ i, i < (m.connections.getD []).length →
        cs'[i]? = (m.connections.getD [])[i]? ∧
        (cs'[i]?).map Edge.fromIndex = ((m.connections.getD [])[i]?).map Edge.fromIndex ∧
        (cs'[i]?).map Edge.toIndex = ((m.connections.getD [])[i]?).map Edge.toIndex := by
  obtain ⟨tn, te, htn, _, hte, _, _⟩ := ensure_shape h
  refine ⟨m.connections.getD [] ++ te, hte, ⟨tn, htn⟩, ?_⟩
  intro i hi
  rw [List.getElem?_append_left hi]
  exact ⟨rfl, rfl, rfl⟩

/-- C2 witness: a concrete instantiation on a document with an existing edge,
which survives the mutation unchanged at its index. -/
theorem C2_preexisting_edges_unchanged_witness :
    ensure_kafka_sink_metadata "rc" "u" 0 "t" "b" mOtherLabel =
      Except.ok { mOtherLabel with connections := some [⟨0, 1, "Other"⟩] } ∧
    ∃ cs', ({ mOtherLabel with connections := some [⟨0, 1, "Other"⟩] }
        : ChainMetadata).connections = some cs' ∧
      (∃ tn, ({ mOtherLabel with connections := some [⟨0, 1, "Other"⟩] }
        : ChainMetadata).nodes = mOtherLabel.nodes ++ tn) ∧
      ∀ i, i < (mOtherLabel.connections.getD []).length →
        cs'[i]? = (mOtherLabel.connections.getD [])[i]? ∧
        (cs'[i]?).map Edge.fromIndex =
          ((mOtherLabel.connections.getD [])[i]?).map Edge.fromIndex ∧
        (cs'[i]?).map Edge.toIndex =
          ((mOtherLabel.connections.getD [])[i]?).map Edge.toIndex := by
  refine ⟨rfl, ?_⟩
  exact @C2_preexisting_edges_unchanged "rc" "u" 0 "t" "b" mOtherLabel
    { mOtherLabel with connections := some [⟨0, 1, "Other"⟩] } rfl

/-- C9: the written document is the original node sequence with at most one
node appended and the original edge sequence with at most one edge appended;
nothing is removed, modified or reordered, and every other key of the
document is untouched. -/
theorem C9_frame_append_only {ch fu : String} {now : Nat} {tp bs : String}
    {m m' : ChainMetadata}
    (h : ensure_kafka_sink_metadata ch fu now tp bs m = Except.ok m') :
    ∃ tn te, m'.nodes = m.nodes ++ tn ∧ tn.length ≤ 1 ∧
      m'.connections = some (m.connections.getD [] ++ te) ∧ te.length ≤ 1 ∧
      m'.extra = m.extra :=
  ensure_shape h

/-- C9 witness: on a document already containing the sink node and the edge,
the mutation appends nothing and leaves every field intact. -/
theorem C9_frame_append_only_witness :
    ensure_kafka_sink_metadata "rc" "u" 0 "t" "b" mInstalled =
      Except.ok mInstalled ∧
    ∃ tn te, mInstalled.nodes = mInstalled.nodes ++ tn ∧ tn.length ≤ 1 ∧
      mInstalled.connections = some (mInstalled.connections.getD [] ++ te) ∧
      te.length ≤ 1 ∧ mInstalled.extra = mInstalled.extra :=
  ⟨rfl, @C9_frame_append_only "rc" "u" 0 "t" "b" mInstalled mInstalled rfl⟩

/-- C7: when no node's type contains the dispatch substring, the function
raises the `RequestError` message and issues no write request at all. -/
theorem C7_no_dispatch_fails_before_write {m : ChainMetadata}
    (h : ∀ n ∈ m.nodes, isMsgSwitchNode n = false)
    (ch fu : String) (now : Nat) (tp bs : String) (primary_ok legacy_ok : Bool) :
    ensure_kafka_sink_in_root_chain ch fu now tp bs primary_ok legacy_ok m =
      ([], Except.error "Message Type Switch node not found in root rule chain") := by
  have hsw : m.nodes.findIdx? isMsgSwitchNode = none :=
    List.findIdx?_eq_none_iff.mpr h
  simp [ensure_kafka_sink_in_root_chain, ensure_error_of_no_switch hsw]

/-- C7 witness: a document containing only the Kafka node has no dispatch
node, the call fails with the message and its write trace is empty. -/
theorem C7_no_dispatch_fails_before_write_witness :
    (∀ n ∈ mNoSwitch.nodes, isMsgSwitchNode n = false) ∧
    ensure_kafka_sink_in_root_chain "rc" "u" 0 "t" "b" true true mNoSwitch =
      ([], Except.error "Message Type Switch node not found in root rule chain") :=
  ⟨by decide, C7_no_dispatch_fails_before_write (by decide) "rc" "u" 0 "t" "b" true true⟩

/-- C8: the final write first targets the primary endpoint; the secondary
endpoint is used, with the identical document, exactly when the primary
request fails; when the primary succeeds the secondary is never called; when
both fail the failure propagates. -/
theorem C8_primary_write_then_single_fallback {ch fu : String} {now : Nat}
    {tp bs : String} {m m' : ChainMetadata}
    (h : ensure_kafka_sink_metadata ch fu now tp bs m = Except.ok m')
    (primary_ok legacy_ok : Bool) :
    (primary_ok = true →
      ensure_kafka_sink_in_root_chain ch fu now tp bs primary_ok legacy_ok m =
        ([⟨primaryMetadataPath ch, m'⟩], Except.ok m')) ∧
    (primary_ok = false → legacy_ok = true →
      ensure_kafka_sink_in_root_chain ch fu now tp bs primary_ok legacy_ok m =
        ([⟨primaryMetadataPath ch, m'⟩, ⟨legacyMetadataPath, m'⟩],
          Except.ok m')) ∧
    (primary_ok = false → legacy_ok = false →
      ensure_kafka_sink_in_root_chain ch fu now tp bs primary_ok legacy_ok m =
        ([⟨primaryMetadataPath ch, m'⟩, ⟨legacyMetadataPath, m'⟩],
          Except.error "metadata update failed on primary and legacy endpoints")) := by
  refine ⟨?_, ?_, ?_⟩
  · rintro rfl
    simp [ensure_kafka_sink_in_root_chain, h, write_metadata_with_fallback]
  · rintro rfl rfl
    simp [ensure_kafka_sink_in_root_chain, h, write_metadata_with_fallback]
  · rintro rfl rfl
    simp [ensure_kafka_sink_in_root_chain, h, write_metadata_with_fallback]

/-- C8 witness: with a failing primary endpoint and a working secondary one,
the same document is written to the primary and then to the secondary path. -/
theorem C8_primary_write_then_single_fallback_witness :
    ensure_kafka_sink_metadata "rc" "u" 0 "t" "b" mInstalled =
      Except.ok mInstalled ∧
    ensure_kafka_sink_in_root_chain "rc" "u" 0 "t" "b" false true mInstalled =
      ([⟨primaryMetadataPath "rc", mInstalled⟩, ⟨legacyMetadataPath, mInstalled⟩],
        Except.ok mInstalled) :=
  ⟨rfl, (@C8_primary_write_then_single_fallback "rc" "u" 0 "t" "b"
    mInstalled mInstalled rfl false true).2.1 rfl rfl⟩

/-- C10: whenever the dispatch node is present the function issues the
wholesale metadata write (to the primary endpoint first), even when the
document is unchanged: the permitted no-op skip is never taken. -/
theorem C10_write_always_issued {m : ChainMetadata} {d : Nat}
    (hsw : m.nodes.findIdx? isMsgSwitchNode = some d)
    (ch fu : String) (now : Nat) (tp bs : String) (primary_ok legacy_ok : Bool) :
    ∃ m', ensure_kafka_sink_metadata ch fu now tp bs m = Except.ok m' ∧
      (ensure_kafka_sink_in_root_chain ch fu now tp bs primary_ok legacy_ok m).1.head? =
        some ⟨primaryMetadataPath ch, m'⟩ := by
  refine ⟨_, ensure_ok_of_switch hsw ch fu now tp bs, ?_⟩
  cases primary_ok <;> cases legacy_ok <;>
    simp [ensure_kafka_sink_in_root_chain, ensure_ok_of_switch hsw,
      write_metadata_with_fallback]

/-- C10 witness: on a document already containing the sink node and the edge
the mutation is a no-op, yet the metadata write is still issued — with the
byte-for-byte unchanged document. -/
theorem C10_write_always_issued_witness :
    mInstalled.nodes.findIdx? isMsgSwitchNode = some 0 ∧
    ∃ m', ensure_kafka_sink_metadata "rc" "u" 0 "t" "b" mInstalled =
        Except.ok m' ∧
      (ensure_kafka_sink_in_root_chain "rc" "u" 0 "t" "b" true true
        mInstalled).1.head? = some ⟨primaryMetadataPath "rc", m'⟩ :=
  ⟨rfl, @C10_write_always_issued mInstalled 0 rfl "rc" "u" 0 "t" "b" true true⟩

/-- C1 counterexample: a document whose dispatch node is at index 0 and sink
node at index 1, with no edge labeled `Post telemetry` between them — only an
edge with a different label.  The claim demands that the `Post telemetry`
edge be appended; the code appends nothing, because its existing-edge check
compares only `fromIndex` and `toIndex` and ignores the label. -/
theorem C1_counterexample_label_ignored :
    mOtherLabel.nodes.findIdx? isMsgSwitchNode = some 0 ∧
    mOtherLabel.nodes.findIdx? isKafkaNode = some 1 ∧
    (Edge.mk 0 1 postTelemetryLabel) ∉ mOtherLabel.connections.getD [] ∧
    ensure_kafka_sink_metadata "rc" "u" 0 "t" "b" mOtherLabel =
      Except.ok mOtherLabel ∧
    ((mOtherLabel.connections.getD []).filter
      (fun c => connectsB 0 1 c && c.type == postTelemetryLabel)).length = 0 :=
  ⟨rfl, rfl, by decide, rfl, rfl⟩

/-- C1 as amended: if no edge connects the dispatch index to the sink index
with ANY label (the duplicate check compares only the index pair), the edge
`{fromIndex, toIndex, type := "Post telemetry"}` is appended to the edge
sequence of the document handed to the write step. -/
theorem C1_edge_appended_unless_index_pair_linked {m : ChainMetadata} {d k : Nat}
    (hsw : m.nodes.findIdx? isMsgSwitchNode = some d)
    (hk : m.nodes.findIdx? isKafkaNode = some k)
    (hno : (m.connections.getD []).any (connectsB d k) = false)
    (ch fu : String) (now : Nat) (tp bs : String) :
    ensure_kafka_sink_metadata ch fu now tp bs m =
      Except.ok
        { m with connections := some (m.connections.getD [] ++ [⟨d, k, postTelemetryLabel⟩]) } := by
  rw [ensure_ok_of_switch hsw, sinkStep_of_found hk, edgeStep_of_miss hno]

/-- C1 witness: on a document with dispatch node at 0, sink node at 1 and no
edges, the `Post telemetry` edge from 0 to 1 is appended. -/
theorem C1_edge_appended_unless_index_pair_linked_witness :
    mNoEdge.nodes.findIdx? isMsgSwitchNode = some 0 ∧
    mNoEdge.nodes.findIdx? isKafkaNode = some 1 ∧
    (mNoEdge.connections.getD []).any (connectsB 0 1) = false ∧
    ensure_kafka_sink_metadata "rc" "u" 0 "t" "b" mNoEdge =
      Except.ok
        { mNoEdge with connections := some (mNoEdge.connections.getD [] ++ [⟨0, 1, postTelemetryLabel⟩]) } :=
  ⟨rfl, rfl, rfl,
    @C1_edge_appended_unless_index_pair_linked mNoEdge 0 1 rfl rfl rfl "rc" "u" 0 "t" "b"⟩

theorem isKafkaNode_kafka_node (ch fu : String) (now : Nat) (tp bs : String) :
    isKafkaNode (kafka_node ch fu now tp bs) = true := rfl

theorem sinkStep_findIdx (ch fu : String) (now : Nat) (tp bs : String)
    (nodes : List RuleNode) :
    (sinkStep ch fu now tp bs nodes).1.findIdx? isKafkaNode =
      some (sinkStep ch fu now tp bs nodes).2 := by
  cases hk : nodes.findIdx? isKafkaNode with
  | some k => rw [sinkStep_of_found hk]; exact hk
  | none =>
    rw [sinkStep_of_missing hk]
    simp [List.findIdx?_append, hk, isKafkaNode_kafka_node]

theorem sinkStep_switchIdx {nodes : List RuleNode} {d : Nat}
    (hsw : nodes.findIdx? isMsgSwitchNode = some d)
    (ch fu : String) (now : Nat) (tp bs : String) :
    (sinkStep ch fu now tp bs nodes).1.findIdx? isMsgSwitchNode = some d := by
  cases hk : nodes.findIdx? isKafkaNode with
  | some k => rw [sinkStep_of_found hk]; exact hsw
  | none => rw [sinkStep_of_missing hk]; simp [List.findIdx?_append, hsw]

theorem connectsB_self (d k : Nat) :
    connectsB d k ⟨d, k, postTelemetryLabel⟩ = true := by
  simp [connectsB]

theorem edgeStep_any (d k : Nat) (connections : List Edge) :
    (edgeStep d k connections).any (connectsB d k) = true := by
  cases he : connections.any (connectsB d k) with
  | true => rw [edgeStep_of_hit he]; exact he
  | false =>
    rw [edgeStep_of_miss he]
    simp [List.any_append, connectsB_self]

theorem edgeStep_countP (d k : Nat) (connections : List Edge) :
    (edgeStep d k connections).countP (connectsB d k) =
      max (connections.countP (connectsB d k)) 1 := by
  cases he : connections.any (connectsB d k) with
  | true =>
    rw [edgeStep_of_hit he]
    obtain ⟨x, hx, hpx⟩ := List.any_eq_true.mp he
    have hpos : 0 < connections.countP (connectsB d k) :=
      List.countP_pos_iff.mpr ⟨x, hx, hpx⟩
    exact (Nat.max_eq_left hpos).symm
  | false =>
    rw [edgeStep_of_miss he]
    have hz : connections.countP (connectsB d k) = 0 :=
      List.countP_eq_zero.mpr (List.any_eq_false.mp he)
    simp [List.countP_append, hz, List.countP_singleton, connectsB_self]

theorem sinkStep_countP (ch fu : String) (now : Nat) (tp bs : String)
    (nodes : List RuleNode) :
    (sinkStep ch fu now tp bs nodes).1.countP isKafkaNode =
      max (nodes.countP isKafkaNode) 1 := by
  cases hk : nodes.findIdx? isKafkaNode with
  | some k =>
    rw [sinkStep_of_found hk]
    obtain ⟨hlt, hp, _⟩ := List.findIdx?_eq_some_iff_getElem.mp hk
    have hpos : 0 < nodes.countP isKafkaNode :=
      List.countP_pos_iff.mpr ⟨nodes[k], List.getElem_mem hlt, hp⟩
    exact (Nat.max_eq_left hpos).symm
  | none =>
    rw [sinkStep_of_missing hk]
    have hz : nodes.countP isKafkaNode = 0 :=
      List.countP_eq_zero.mpr
        (fun a ha => by simp [List.findIdx?_eq_none_iff.mp hk a ha])
    simp [List.countP_append, hz, List.countP_singleton, isKafkaNode_kafka_node]

/-- C4 counterexample: a document with dispatch node at 0, sink node at 1 and
a single differently-labeled edge from 0 to 1.  The call is a no-op (so
running it twice returns the same document both times), yet the resulting
document contains zero edges `(0, 1, "Post telemetry")`, not exactly one as
the claim demands. -/
theorem C4_counterexample_label_ignored :
    mFooLabel.nodes.findIdx? isMsgSwitchNode = some 0 ∧
    mFooLabel.nodes.findIdx? isKafkaNode = some 1 ∧
    ensure_kafka_sink_metadata "rc" "u" 0 "t" "b" mFooLabel =
      Except.ok mFooLabel ∧
    ((mFooLabel.connections.getD []).filter
      (fun c => connectsB 0 1 c && c.type == postTelemetryLabel)).length = 0 :=
  ⟨rfl, rfl, rfl, rfl⟩

/-- C4 as amended: a successful run is idempotent — a second run (under any
configuration) adds no node and no edge and returns the same document — and
after one run the document holds exactly `max(previous count, 1)` sink-type
nodes and exactly `max(previous count, 1)` edges joining the dispatch index
to the sink index, where edges are counted by their index pair regardless of
label. -/
theorem C4_idempotent_up_to_edge_label {ch fu : String} {now : Nat}
    {tp bs : String} {m m' : ChainMetadata}
    (h : ensure_kafka_sink_metadata ch fu now tp bs m = Except.ok m') :
    (∀ ch2 fu2 : String, ∀ now2 : Nat, ∀ tp2 bs2 : String,
      ensure_kafka_sink_metadata ch2 fu2 now2 tp2 bs2 m' = Except.ok m') ∧
    m'.nodes.countP isKafkaNode = max (m.nodes.countP isKafkaNode) 1 ∧
    (∀ d k : Nat, m'.nodes.findIdx? isMsgSwitchNode = some d →
      m'.nodes.findIdx? isKafkaNode = some k →
      (m'.connections.getD []).countP (connectsB d k) =
        max ((m.connections.getD []).countP (connectsB d k)) 1) := by
  cases hsw : m.nodes.findIdx? isMsgSwitchNode with
  | none => rw [ensure_error_of_no_switch hsw] at h; cases h
  | some d0 =>
    rw [ensure_ok_of_switch hsw] at h
    cases h
    refine ⟨?_, ?_, ?_⟩
    · intro ch2 fu2 now2 tp2 bs2
      rw [ensure_ok_of_switch (sinkStep_switchIdx hsw ch fu now tp bs) ch2 fu2 now2 tp2 bs2]
      simp only [sinkStep_of_found (sinkStep_findIdx ch fu now tp bs m.nodes),
        Option.getD_some,
        edgeStep_of_hit (edgeStep_any d0 (sinkStep ch fu now tp bs m.nodes).2
          (m.connections.getD []))]
    · exact sinkStep_countP ch fu now tp bs m.nodes
    · intro d k hd hk
      rw [sinkStep_switchIdx hsw ch fu now tp bs] at hd
      rw [sinkStep_findIdx ch fu now tp bs m.nodes] at hk
      cases hd
      cases hk
      exact edgeStep_countP d0 (sinkStep ch fu now tp bs m.nodes).2
        (m.connections.getD [])

/-- C4 witness: starting from a document with the dispatch node only, one run
installs the sink node and the edge; the second run is the identity, with
exactly one sink node and one connecting edge. -/
theorem C4_idempotent_up_to_edge_label_witness :
    ensure_kafka_sink_metadata "rc" "u" 0 "t" "b" mSwitchOnly =
      Except.ok ⟨[switchNodeEx, kafka_node "rc" "u" 0 "t" "b"],
        some [⟨0, 1, postTelemetryLabel⟩], []⟩ ∧
    ((∀ ch2 fu2 : String, ∀ now2 : Nat, ∀ tp2 bs2 : String,
      ensure_kafka_sink_metadata ch2 fu2 now2 tp2 bs2
          ⟨[switchNodeEx, kafka_node "rc" "u" 0 "t" "b"],
            some [⟨0, 1, postTelemetryLabel⟩], []⟩ =
        Except.ok ⟨[switchNodeEx, kafka_node "rc" "u" 0 "t" "b"],
          some [⟨0, 1, postTelemetryLabel⟩], []⟩) ∧
    (⟨[switchNodeEx, kafka_node "rc" "u" 0 "t" "b"],
        some [⟨0, 1, postTelemetryLabel⟩], []⟩ : ChainMetadata).nodes.countP
        isKafkaNode = max (mSwitchOnly.nodes.countP isKafkaNode) 1 ∧
    (∀ d k : Nat,
      (⟨[switchNodeEx, kafka_node "rc" "u" 0 "t" "b"],
        some [⟨0, 1, postTelemetryLabel⟩], []⟩ : ChainMetadata).nodes.findIdx?
          isMsgSwitchNode = some d →
      (⟨[switchNodeEx, kafka_node "rc" "u" 0 "t" "b"],
        some [⟨0, 1, postTelemetryLabel⟩], []⟩ : ChainMetadata).nodes.findIdx?
          isKafkaNode = some k →
      ((⟨[switchNodeEx, kafka_node "rc" "u" 0 "t" "b"],
        some [⟨0, 1, postTelemetryLabel⟩], []⟩
          : ChainMetadata).connections.getD []).countP (connectsB d k) =
        max ((mSwitchOnly.connections.getD []).countP (connectsB d k)) 1)) :=
  ⟨rfl, @C4_idempotent_up_to_edge_label "rc" "u" 0 "t" "b" mSwitchOnly
    ⟨[switchNodeEx, kafka_node "rc" "u" 0 "t" "b"],
      some [⟨0, 1, postTelemetryLabel⟩], []⟩ rfl⟩

/-- C5: both page lookups return exactly the first item whose name equals the
lookup name, and `none` when no item's name equals it; over a page named
`["Root Rule Chain v2", "Root Rule Chain"]` a lookup of `"Root Rule Chain"`
selects the second entry only. -/
theorem C5_first_exact_name_match :
    (∀ (data : List Device) (name : String) (item : Device),
      find_device_in_page data name = some item ↔
        ((item.name == name) = true ∧
          ∃ l1 l2, data = l1 ++ item :: l2 ∧ ∀ x ∈ l1, ¬(x.name = name))) ∧
    (∀ (data : List Device) (name : String),
      find_device_in_page data name = none ↔ ∀ x ∈ data, ¬(x.name = name)) ∧
    (∀ (data : List RuleChainInfo) (name : String) (item : RuleChainInfo),
      find_rule_chain_in_page data name = some item ↔
        ((item.name == name) = true ∧
          ∃ l1 l2, data = l1 ++ item :: l2 ∧ ∀ x ∈ l1, ¬(x.name = name))) ∧
    (∀ (data : List RuleChainInfo) (name : String),
      find_rule_chain_in_page data name = none ↔ ∀ x ∈ data, ¬(x.name = name)) ∧
    find_rule_chain_in_page
      [⟨"c1", "Root Rule Chain v2"⟩, ⟨"c2", "Root Rule Chain"⟩]
      "Root Rule Chain" = some ⟨"c2", "Root Rule Chain"⟩ := by
  refine ⟨?_, ?_, ?_, ?_, rfl⟩
  · intro data name item
    simp [find_device_in_page, List.find?_eq_some]
  · intro data name
    simp [find_device_in_page, List.find?_eq_none]
  · intro data name item
    simp [find_rule_chain_in_page, List.find?_eq_some]
  · intro data name
    simp [find_rule_chain_in_page, List.find?_eq_none]

/-- C5 witness: the concrete two-entry page instance of the lookup. -/
theorem C5_first_exact_name_match_witness :
    find_rule_chain_in_page
      [⟨"c1", "Root Rule Chain v2"⟩, ⟨"c2", "Root Rule Chain"⟩]
      "Root Rule Chain" = some ⟨"c2", "Root Rule Chain"⟩ :=
  C5_first_exact_name_match.2.2.2.2

/-- C6: when the fetched credential record carries an id, the upsert payload
carries that id and the record's owning-entity reference; when there is no
record or no id, the payload has no id field. -/
theorem C6_cred_payload_carries_existing_id :
    (∀ (dev_id access_token : String) (c : CredRecord) (i : String) (r : EntityRef),
      c.id = some i → i ≠ "" → c.deviceId = some r →
        (build_cred_payload dev_id access_token (some c)).id = some i ∧
        (build_cred_payload dev_id access_token (some c)).deviceId = r) ∧
    (∀ dev_id access_token : String,
      (build_cred_payload dev_id access_token none).id = none) ∧
    (∀ (dev_id access_token : String) (c : CredRecord), c.id = none →
      (build_cred_payload dev_id access_token (some c)).id = none) := by
  refine ⟨?_, ?_, ?_⟩
  · intro dev_id access_token c i r hid hne hdev
    simp [build_cred_payload, hid, hne, hdev]
  · intro dev_id access_token
    rfl
  · intro dev_id access_token c hid
    simp [build_cred_payload, hid]

/-- C6 witness: with an existing credential id `cred-1` the payload carries
`cred-1` and the record's device reference; with no record it has no id. -/
theorem C6_cred_payload_carries_existing_id_witness :
    ((build_cred_payload "dev-9" "secret"
        (some ⟨some "cred-1", some ⟨"DEVICE", "dev-9"⟩, "ACCESS_TOKEN", "old"⟩)).id =
      some "cred-1" ∧
    (build_cred_payload "dev-9" "secret"
        (some ⟨some "cred-1", some ⟨"DEVICE", "dev-9"⟩, "ACCESS_TOKEN", "old"⟩)).deviceId =
      ⟨"DEVICE", "dev-9"⟩) ∧
    (build_cred_payload "dev-9" "secret" none).id = none :=
  ⟨C6_cred_payload_carries_existing_id.1 "dev-9" "secret"
      ⟨some "cred-1", some ⟨"DEVICE", "dev-9"⟩, "ACCESS_TOKEN", "old"⟩
      "cred-1" ⟨"DEVICE", "dev-9"⟩ rfl (by decide) rfl,
    C6_cred_payload_carries_existing_id.2.1 "dev-9" "secret"⟩

theorem startsWithChars_refl (l : List Char) : startsWithChars l l = true := by
  induction l with
  | nil => rfl
  | cons a as ih => simp [startsWithChars, ih]

theorem strContains_refl (s : String) : strContains s s = true := by
  unfold strContains
  cases h : s.data with
  | nil => rfl
  | cons c t =>
    have := startsWithChars_refl (c :: t)
    simp [containsChars, this]

theorem freshIdStr_ne_empty (n : Nat) : freshIdStr n ≠ "" := by
  intro h
  have h2 := congrArg String.length h
  have h3 : ("id-" ++ toString n).length = 3 + (toString n).length :=
    String.length_append "id-" (toString n)
  simp [freshIdStr, h3] at h2

theorem find_device_congr {s t : ServerState} (h : t.devices = s.devices)
    (name : String) : find_device t name = find_device s name := by
  simp [find_device, searchDevices, h]

theorem upsert_credentials_of_no_cred {t : ServerState} {D : String}
    (hc : getCredentials t D = none) (tok : String) :
    upsert_credentials t D tok =
      { devices := t.devices,
        creds := t.creds ++ [⟨freshIdStr t.nextId, D, "ACCESS_TOKEN", tok⟩],
        nextId := t.nextId + 1 } := by
  simp [upsert_credentials, hc, build_cred_payload, postCredentials]

theorem upsert_credentials_of_cred {t : ServerState} {D : String} {c : StoredCred}
    (hc : getCredentials t D = some c) (hne : c.id ≠ "") (tok : String) :
    upsert_credentials t D tok =
      { t with creds := t.creds.map (fun x =>
          if x.id == c.id then ⟨c.id, c.deviceId, "ACCESS_TOKEN", tok⟩ else x) } := by
  have hmem : c ∈ t.creds := List.mem_of_find?_eq_some hc
  have hany : t.creds.any (fun x => x.id == c.id) = true :=
    List.any_eq_true.mpr ⟨c, hmem, by simp⟩
  simp [upsert_credentials, hc, build_cred_payload, toFetched, postCredentials,
    hne, hany]

theorem find?_map_update {creds : List StoredCred} {D : String} {c : StoredCred}
    (h : creds.find? (fun x => x.deviceId == D) = some c) (R : StoredCred)
    (hR : R.deviceId = D) :
    (creds.map (fun x => if x.id == c.id then R else x)).find?
      (fun x => x.deviceId == D) = some R := by
  induction creds with
  | nil => cases h
  | cons a t ih =>
    by_cases ha : a.deviceId = D
    · have ha' : (a.deviceId == D) = true := beq_iff_eq.mpr ha
      rw [List.find?_cons_of_pos (p := fun x : StoredCred => x.deviceId == D) t ha'] at h
      injection h with h2
      subst h2
      rw [List.map_cons, if_pos (beq_self_eq_true a.id)]
      exact List.find?_cons_of_pos (p := fun x : StoredCred => x.deviceId == D) _
        (beq_iff_eq.mpr hR)
    · have ha' : ¬((a.deviceId == D) = true) := fun hb => ha (beq_iff_eq.mp hb)
      rw [List.find?_cons_of_neg (p := fun x : StoredCred => x.deviceId == D) t ha'] at h
      rw [List.map_cons]
      by_cases hid : a.id = c.id
      · rw [if_pos (beq_iff_eq.mpr hid)]
        exact List.find?_cons_of_pos (p := fun x : StoredCred => x.deviceId == D) _
          (beq_iff_eq.mpr hR)
      · rw [if_neg (fun hb => hid (beq_iff_eq.mp hb))]
        rw [List.find?_cons_of_neg (p := fun x : StoredCred => x.deviceId == D) _ ha']
        exact ih h

theorem ensure_device_first (s : ServerState) (name tok : String)
    (hne : ∀ c ∈ s.creds, c.id ≠ "")
    (hof : ∀ c ∈ s.creds, ∀ n, s.nextId ≤ n → c.deviceId ≠ freshIdStr n) :
    (ensure_device s name tok).2.devices.length ≤ s.devices.length + 1 ∧
    (ensure_device s name tok).2.creds.length ≤ s.creds.length + 1 ∧
    find_device (ensure_device s name tok).2 name = some (ensure_device s name tok).1 ∧
    (∀ c ∈ (ensure_device s name tok).2.creds, c.id ≠ "") ∧
    ∃ c, getCredentials (ensure_device s name tok).2 (ensure_device s name tok).1.id =
        some c ∧ c.credentialsId = tok := by
  cases hf : find_device s name with
  | some d =>
    have he : ensure_device s name tok = (d, upsert_credentials s d.id tok) := by
      simp [ensure_device, hf]
    cases hc : getCredentials s d.id with
    | some c =>
      have hcm : c ∈ s.creds := List.mem_of_find?_eq_some hc
      have hcne := hne c hcm
      have hc' : s.creds.find? (fun x : StoredCred => x.deviceId == d.id) = some c := hc
      have hcd : c.deviceId = d.id := by simpa using List.find?_some hc'
      rw [upsert_credentials_of_cred hc hcne tok] at he
      rw [he]
      refine ⟨Nat.le_succ _, ?_, ?_, ?_, ?_⟩
      · simp only [List.length_map]
        exact Nat.le_succ s.creds.length
      · exact (find_device_congr rfl name).trans hf
      · intro x hx
        rcases List.mem_map.mp hx with ⟨y, hy, rfl⟩
        by_cases hyc : (y.id == c.id) = true
        · rw [if_pos hyc]; exact hcne
        · rw [if_neg hyc]; exact hne y hy
      · exact ⟨⟨c.id, c.deviceId, "ACCESS_TOKEN", tok⟩,
          find?_map_update hc' _ hcd, rfl⟩
    | none =>
      rw [upsert_credentials_of_no_cred hc tok] at he
      rw [he]
      refine ⟨Nat.le_succ _, by simp, ?_, ?_, ?_⟩
      · exact (find_device_congr rfl name).trans hf
      · intro x hx
        rcases List.mem_append.mp hx with hx | hx
        · exact hne x hx
        · rcases List.mem_singleton.mp hx with rfl
          exact freshIdStr_ne_empty s.nextId
      · refine ⟨(⟨freshIdStr s.nextId, d.id, "ACCESS_TOKEN", tok⟩ : StoredCred), ?_, rfl⟩
        show (s.creds ++
            ([⟨freshIdStr s.nextId, d.id, "ACCESS_TOKEN", tok⟩] : List StoredCred)).find?
          (fun x : StoredCred => x.deviceId == d.id) =
          some ⟨freshIdStr s.nextId, d.id, "ACCESS_TOKEN", tok⟩
        rw [List.find?_append]
        have h1 : s.creds.find? (fun x : StoredCred => x.deviceId == d.id) = none := hc
        rw [h1, Option.none_or]
        exact List.find?_cons_of_pos _ (beq_self_eq_true d.id)
  | none =>
    have he : ensure_device s name tok =
        (⟨freshIdStr s.nextId, name, "drone"⟩,
          upsert_credentials
            ⟨s.devices ++ [⟨freshIdStr s.nextId, name, "drone"⟩], s.creds, s.nextId + 1⟩
            (freshIdStr s.nextId) tok) := by
      simp [ensure_device, hf, createDevice]
    have hcnone : getCredentials
        ⟨s.devices ++ [⟨freshIdStr s.nextId, name, "drone"⟩], s.creds, s.nextId + 1⟩
        (freshIdStr s.nextId) = none := by
      apply List.find?_eq_none.mpr
      intro x hx hb
      exact hof x hx s.nextId (Nat.le_refl _) (beq_iff_eq.mp hb)
    rw [upsert_credentials_of_no_cred hcnone tok] at he
    rw [he]
    refine ⟨by simp, by simp, ?_, ?_, ?_⟩
    · show find_device
        ⟨s.devices ++ [⟨freshIdStr s.nextId, name, "drone"⟩], _, _⟩ name = _
      simp only [find_device, find_device_in_page, searchDevices,
        List.filter_append]
      rw [List.find?_append]
      have h1 : (s.devices.filter (fun d : Device => strContains d.name name)).find?
          (fun item : Device => item.name == name) = none := hf
      rw [h1, Option.none_or]
      have h2 : List.filter (fun d : Device => strContains d.name name)
          ([⟨freshIdStr s.nextId, name, "drone"⟩] : List Device) =
          ([⟨freshIdStr s.nextId, name, "drone"⟩] : List Device) := by
        simp [List.filter, strContains_refl]
      rw [h2]
      exact List.find?_cons_of_pos _ (beq_self_eq_true name)
    · intro x hx
      rcases List.mem_append.mp hx with hx | hx
      · exact hne x hx
      · rcases List.mem_singleton.mp hx with rfl
        exact freshIdStr_ne_empty (s.nextId + 1)
    · refine ⟨(⟨freshIdStr (s.nextId + 1), freshIdStr s.nextId, "ACCESS_TOKEN", tok⟩
        : StoredCred), ?_, rfl⟩
      show (s.creds ++
          ([⟨freshIdStr (s.nextId + 1), freshIdStr s.nextId, "ACCESS_TOKEN", tok⟩]
            : List StoredCred)).find?
          (fun x : StoredCred => x.deviceId == freshIdStr s.nextId) =
          some ⟨freshIdStr (s.nextId + 1), freshIdStr s.nextId, "ACCESS_TOKEN", tok⟩
      rw [List.find?_append]
      have h1 : s.creds.find?
          (fun x : StoredCred => x.deviceId == freshIdStr s.nextId) = none := by
        apply List.find?_eq_none.mpr
        intro x hx hb
        exact hof x hx s.nextId (Nat.le_refl _) (beq_iff_eq.mp hb)
      rw [h1, Option.none_or]
      exact List.find?_cons_of_pos _ (beq_self_eq_true (freshIdStr s.nextId))

theorem ensure_device_steady {t : ServerState} {name : String} {dev : Device}
    {c : StoredCred} (hfd : find_device t name = some dev)
    (hc : getCredentials t dev.id = some c) (hcne : c.id ≠ "") (tok : String) :
    (ensure_device t name tok).1 = dev ∧
    (ensure_device t name tok).2.devices = t.devices ∧
    (ensure_device t name tok).2.creds.length = t.creds.length ∧
    deviceToken (ensure_device t name tok).2 dev.id = some tok := by
  have he : ensure_device t name tok = (dev, upsert_credentials t dev.id tok) := by
    simp [ensure_device, hfd]
  have hc' : t.creds.find? (fun x : StoredCred => x.deviceId == dev.id) = some c := hc
  have hcd : c.deviceId = dev.id := by simpa using List.find?_some hc'
  rw [upsert_credentials_of_cred hc hcne tok] at he
  rw [he]
  refine ⟨rfl, rfl, by simp, ?_⟩
  show (getCredentials _ dev.id).map StoredCred.credentialsId = _
  have h1 := find?_map_update hc'
    (⟨c.id, c.deviceId, "ACCESS_TOKEN", tok⟩ : StoredCred) hcd
  show ((t.creds.map _).find? (fun x => x.deviceId == dev.id)).map
    StoredCred.credentialsId = _
  rw [h1]
  rfl

/-- C3: running `ensure_device` twice with the same name and secret against
the same initial remote state creates at most one device and at most one
credential record in total; after either run the device's credential token
equals the given secret; the second run returns the same device, creates no
device and no credential record.  The two hypotheses say the initial remote
state is well formed at the interface: stored credential ids are non-empty
opaque strings, and ids the platform has yet to draw are genuinely fresh. -/
theorem C3_ensure_device_idempotent (s0 : ServerState) (name tok : String)
    (hne : ∀ c ∈ s0.creds, c.id ≠ "")
    (hof : ∀ c ∈ s0.creds, ∀ n, s0.nextId ≤ n → c.deviceId ≠ freshIdStr n) :
    (ensure_device (ensure_device s0 name tok).2 name tok).2.devices.length ≤
      s0.devices.length + 1 ∧
    (ensure_device (ensure_device s0 name tok).2 name tok).2.creds.length ≤
      s0.creds.length + 1 ∧
    deviceToken (ensure_device s0 name tok).2 (ensure_device s0 name tok).1.id =
      some tok ∧
    deviceToken (ensure_device (ensure_device s0 name tok).2 name tok).2
      (ensure_device (ensure_device s0 name tok).2 name tok).1.id = some tok ∧
    (ensure_device (ensure_device s0 name tok).2 name tok).1 =
      (ensure_device s0 name tok).1 ∧
    (ensure_device (ensure_device s0 name tok).2 name tok).2.devices =
      (ensure_device s0 name tok).2.devices ∧
    (ensure_device (ensure_device s0 name tok).2 name tok).2.creds.length =
      (ensure_device s0 name tok).2.creds.length := by
  obtain ⟨h1, h2, h3, h4, c, hc, hctok⟩ := ensure_device_first s0 name tok hne hof
  have hcne : c.id ≠ "" := h4 c (List.mem_of_find?_eq_some hc)
  obtain ⟨g1, g2, g3, g4⟩ := ensure_device_steady h3 hc hcne tok
  refine ⟨?_, ?_, ?_, ?_, g1, g2, g3⟩
  · rw [g2]; exact h1
  · rw [g3]; exact h2
  · simp [deviceToken, hc, hctok]
  · rw [g1]; exact g4

/-- C3 witness: from an empty remote state, two runs with the same name and
secret end with one device, one credential record, and the token equal to the
secret after either run. -/
theorem C3_ensure_device_idempotent_witness :
    (∀ c ∈ (⟨[], [], 0⟩ : ServerState).creds, c.id ≠ "") ∧
    (∀ c ∈ (⟨[], [], 0⟩ : ServerState).creds, ∀ n,
      (⟨[], [], 0⟩ : ServerState).nextId ≤ n → c.deviceId ≠ freshIdStr n) ∧
    ((ensure_device (ensure_device ⟨[], [], 0⟩ "drone-1" "secret").2
        "drone-1" "secret").2.devices.length ≤
      (⟨[], [], 0⟩ : ServerState).devices.length + 1 ∧
    (ensure_device (ensure_device ⟨[], [], 0⟩ "drone-1" "secret").2
        "drone-1" "secret").2.creds.length ≤
      (⟨[], [], 0⟩ : ServerState).creds.length + 1 ∧
    deviceToken (ensure_device ⟨[], [], 0⟩ "drone-1" "secret").2
      (ensure_device ⟨[], [], 0⟩ "drone-1" "secret").1.id = some "secret" ∧
    deviceToken (ensure_device (ensure_device ⟨[], [], 0⟩ "drone-1" "secret").2
        "drone-1" "secret").2
      (ensure_device (ensure_device ⟨[], [], 0⟩ "drone-1" "secret").2
        "drone-1" "secret").1.id = some "secret" ∧
    (ensure_device (ensure_device ⟨[], [], 0⟩ "drone-1" "secret").2
        "drone-1" "secret").1 = (ensure_device ⟨[], [], 0⟩ "drone-1" "secret").1 ∧
    (ensure_device (ensure_device ⟨[], [], 0⟩ "drone-1" "secret").2
        "drone-1" "secret").2.devices =
      (ensure_device ⟨[], [], 0⟩ "drone-1" "secret").2.devices ∧
    (ensure_device (ensure_device ⟨[], [], 0⟩ "drone-1" "secret").2
        "drone-1" "secret").2.creds.length =
      (ensure_device ⟨[], [], 0⟩ "drone-1" "secret").2.creds.length) :=
  ⟨by simp, by simp,
    C3_ensure_device_idempotent ⟨[], [], 0⟩ "drone-1" "secret" (by simp) (by simp)⟩

end ConfigureThingsboard
